import Mathlib

/-!
Verification of the ape2025 repository core: the SDXL-Turbo gRPC servicer
(`src/models/sdxl-turbo/server.py`) and the Psyche backend broadcast layer
(`src/psyche/backend/websocket_manager.py`, `src/psyche/backend/image_handler.py`).

The Python code is shallowly embedded: every class becomes a structure, every
method a pure function threaded through the state, `asyncio.Queue` becomes a
FIFO list, Python `set` becomes `Finset`, Python numeric division over latencies
is modelled with exact rationals (`ℚ`), and a Python function that may raise is
modelled with `Except`.
-/

namespace SDXLTurbo

/-- RequestQueue from `src/models/sdxl-turbo/server.py` lines 15-40.
`queue` is the FIFO contents of the `asyncio.Queue` (pairs of request id and
request payload, the payload type `ρ` kept abstract), the other three fields
are the statistics counters initialised in `__init__`. -/
structure RequestQueue (ρ : Type) where
  queue : List (Nat × ρ)
  active_requests : Nat
  avg_processing_time : ℚ
  total_processed : Nat
deriving DecidableEq

/-- The state produced by `RequestQueue.__init__`: empty queue, all counters 0. -/
def RequestQueue.init (ρ : Type) : RequestQueue ρ :=
  { queue := [], active_requests := 0, avg_processing_time := 0, total_processed := 0 }

/-- `RequestQueue.add_request`: `await self.queue.put((request_id, request_data))`. -/
def RequestQueue.add_request (q : RequestQueue ρ) (request_id : Nat) (request_data : ρ) :
    RequestQueue ρ :=
  { q with queue := q.queue ++ [(request_id, request_data)] }

/-- `RequestQueue.update_processing_time` (server.py lines 28-33):
`total_processed += 1` then
`avg = (avg * (total_processed - 1) + processing_time_ms) / total_processed`. -/
def RequestQueue.update_processing_time (q : RequestQueue ρ) (processing_time_ms : ℚ) :
    RequestQueue ρ :=
  let total := q.total_processed + 1
  { q with
    total_processed := total
    avg_processing_time :=
      (q.avg_processing_time * ((total : ℚ) - 1) + processing_time_ms) / (total : ℚ) }

/-- The dictionary returned by `RequestQueue.get_status` (server.py lines 35-40). -/
structure QueueStatus where
  queue_length : Nat
  active_requests : Nat
  estimated_wait_time_ms : ℚ
deriving DecidableEq

/-- `RequestQueue.get_status`: queue length, active count, and
`estimated_wait_time_ms = avg_processing_time * qsize()`. -/
def RequestQueue.get_status (q : RequestQueue ρ) : QueueStatus :=
  { queue_length := q.queue.length
    active_requests := q.active_requests
    estimated_wait_time_ms := q.avg_processing_time * (q.queue.length : ℚ) }

/-- Folding `update_processing_time` adds the number of samples to `total_processed`. -/
lemma foldl_update_total (L : List ℚ) :
    ∀ q : RequestQueue ρ,
      (L.foldl RequestQueue.update_processing_time q).total_processed =
        q.total_processed + L.length := by
  induction L with
  | nil => intro q; simp
  | cons l ls ih =>
    intro q
    simp only [List.foldl_cons, ih, RequestQueue.update_processing_time, List.length_cons]
    omega

/-- Running-sum invariant of the cumulative mean: after folding the samples `L`,
`avg * total = old_avg * old_total + L.sum`. -/
lemma foldl_update_mul (L : List ℚ) :
    ∀ q : RequestQueue ρ,
      (L.foldl RequestQueue.update_processing_time q).avg_processing_time *
          ((L.foldl RequestQueue.update_processing_time q).total_processed : ℚ) =
        q.avg_processing_time * (q.total_processed : ℚ) + L.sum := by
  induction L with
  | nil => intro q; simp
  | cons l ls ih =>
    intro q
    have hne : ((q.total_processed + 1 : Nat) : ℚ) ≠ 0 := by
      exact_mod_cast Nat.succ_ne_zero q.total_processed
    have hstep :
        (q.update_processing_time l).avg_processing_time *
            ((q.update_processing_time l).total_processed : ℚ) =
          q.avg_processing_time * (q.total_processed : ℚ) + l := by
      simp only [RequestQueue.update_processing_time]
      rw [div_mul_cancel₀ _ hne]
      push_cast
      ring
    simp only [List.foldl_cons, ih, hstep, List.sum_cons]
    ring

/-- C3: starting from the freshly initialised accumulator (average 0, count 0),
K calls to `RequestQueue.update_processing_time` with latencies L1..LK leave
`total_processed = K` and `avg_processing_time = (L1+...+LK)/K` exactly
(latencies modelled as exact rationals; for K = 0 both sides are 0). -/
theorem update_processing_time_computes_mean (ρ : Type) (L : List ℚ) :
    (L.foldl RequestQueue.update_processing_time (RequestQueue.init ρ)).total_processed =
        L.length ∧
      (L.foldl RequestQueue.update_processing_time (RequestQueue.init ρ)).avg_processing_time =
        L.sum / (L.length : ℚ) := by
  have htot : (L.foldl RequestQueue.update_processing_time
      (RequestQueue.init ρ)).total_processed = L.length := by
    simpa [RequestQueue.init] using foldl_update_total (ρ := ρ) L (RequestQueue.init ρ)
  have hmul : (L.foldl RequestQueue.update_processing_time
        (RequestQueue.init ρ)).avg_processing_time *
      ((L.foldl RequestQueue.update_processing_time
        (RequestQueue.init ρ)).total_processed : ℚ) = L.sum := by
    simpa [RequestQueue.init] using foldl_update_mul (ρ := ρ) L (RequestQueue.init ρ)
  refine ⟨htot, ?_⟩
  rcases Nat.eq_zero_or_pos L.length with h0 | hpos
  · rcases List.eq_nil_of_length_eq_zero h0 with rfl
    simp [RequestQueue.init]
  · have hne : ((L.length : ℚ)) ≠ 0 := by
      exact_mod_cast Nat.pos_iff_ne_zero.mp hpos
    rw [eq_div_iff hne]
    rw [htot] at hmul
    exact hmul

/-- Response message of the `Img2Img` RPC (fields of `pb2.Img2ImgResponse` used
by the server), the image payload type `Img` kept abstract. -/
structure Img2ImgResponse (Img : Type) where
  generated_image : Img
  request_id : Nat
  processing_time_ms : Nat
deriving DecidableEq

/-- Response message of the `Img2ImgBatch` RPC (fields of
`pb2.Img2ImgBatchResponse` used by the server). -/
structure Img2ImgBatchResponse (Img : Type) where
  generated_images : List Img
  request_id : Nat
  processing_time_ms : Nat
deriving DecidableEq

/-- Response message of the `GetQueueStatus` RPC (fields of
`pb2.QueueStatusResponse` used by the server). -/
structure QueueStatusResponse where
  queue_length : Nat
  estimated_wait_time_ms : ℚ
  active_requests : Nat
deriving DecidableEq

/-- Mutable state of `SDXLTurboServicer` (server.py lines 42-49): the
`RequestQueue` and the process-wide `request_counter`.  The model, the logger
and the executor hold no data relevant to the claims; the executor's
`max_workers=1` scheduling is embedded separately as `ExecutorState`. -/
structure Servicer (ρ : Type) where
  request_queue : RequestQueue ρ
  request_counter : Nat
deriving DecidableEq

/-- `SDXLTurboServicer.__init__`: fresh queue, counter 0. -/
def Servicer.init (ρ : Type) : Servicer ρ :=
  { request_queue := RequestQueue.init ρ, request_counter := 0 }

/-- `SDXLTurboServicer.Img2Img` (server.py lines 51-78).  The handler reads
`request_id = self.request_counter`, increments the counter, then awaits the
backend call through the executor; the backend outcome is the parameter
`backend` (`.ok img` for a generated image, `.error e` when
`model.generate_image` raises — the handler logs and re-raises).  `elapsed_ms`
is the measured wall-clock around the backend call.  Note the handler never
touches `self.request_queue`. -/
def Servicer.Img2Img (s : Servicer ρ) (backend : Except String Img) (elapsed_ms : Nat) :
    Servicer ρ × Except String (Img2ImgResponse Img) :=
  let request_id := s.request_counter
  let s' : Servicer ρ := { s with request_counter := s.request_counter + 1 }
  match backend with
  | Except.ok img =>
      (s', Except.ok
        { generated_image := img, request_id := request_id, processing_time_ms := elapsed_ms })
  | Except.error e => (s', Except.error e)

/-- `SDXLTurboServicer.Img2ImgBatch` (server.py lines 80-108), same shape as
`Img2Img` but the backend returns a list of images. -/
def Servicer.Img2ImgBatch (s : Servicer ρ) (backend : Except String (List Img))
    (elapsed_ms : Nat) : Servicer ρ × Except String (Img2ImgBatchResponse Img) :=
  let request_id := s.request_counter
  let s' : Servicer ρ := { s with request_counter := s.request_counter + 1 }
  match backend with
  | Except.ok imgs =>
      (s', Except.ok
        { generated_images := imgs, request_id := request_id, processing_time_ms := elapsed_ms })
  | Except.error e => (s', Except.error e)

/-- `SDXLTurboServicer.GetQueueStatus` (server.py lines 110-116): repackages
`request_queue.get_status()` into the response message. -/
def Servicer.GetQueueStatus (s : Servicer ρ) : QueueStatusResponse :=
  { queue_length := s.request_queue.get_status.queue_length
    estimated_wait_time_ms := s.request_queue.get_status.estimated_wait_time_ms
    active_requests := s.request_queue.get_status.active_requests }

/-- A request handled by the servicer: a single `Img2Img` call or an
`Img2ImgBatch` call, each carrying its backend outcome and measured latency. -/
inductive ReqOp (Img : Type) where
  | single (backend : Except String Img) (elapsed_ms : Nat)
  | batch (backend : Except String (List Img)) (elapsed_ms : Nat)

/-- Run a sequence of requests through the servicer, returning the final state
and the list of `request_id` values assigned (each handler assigns
`request_id = self.request_counter` on entry). -/
def Servicer.runOps : List (ReqOp Img) → Servicer ρ → Servicer ρ × List Nat
  | [], s => (s, [])
  | ReqOp.single b t :: rest, s =>
      let r := Servicer.runOps rest (s.Img2Img b t).1
      (r.1, s.request_counter :: r.2)
  | ReqOp.batch b t :: rest, s =>
      let r := Servicer.runOps rest (s.Img2ImgBatch b t).1
      (r.1, s.request_counter :: r.2)

/-- `Img2Img` leaves the request queue untouched and increments the counter. -/
lemma Img2Img_state (s : Servicer ρ) (b : Except String Img) (t : Nat) :
    (s.Img2Img b t).1 = { s with request_counter := s.request_counter + 1 } := by
  cases b <;> rfl

/-- `Img2ImgBatch` leaves the request queue untouched and increments the counter. -/
lemma Img2ImgBatch_state (s : Servicer ρ) (b : Except String (List Img)) (t : Nat) :
    (s.Img2ImgBatch b t).1 = { s with request_counter := s.request_counter + 1 } := by
  cases b <;> rfl

/-- The ids assigned to a run of requests are consecutive starting at the
current counter value. -/
lemma runOps_ids (ops : List (ReqOp Img)) :
    ∀ s : Servicer ρ, (Servicer.runOps ops s).2 = List.range' s.request_counter ops.length := by
  induction ops with
  | nil => intro s; rfl
  | cons op rest ih =>
    intro s
    cases op with
    | single b t =>
      simp only [Servicer.runOps, ih, Img2Img_state, List.length_cons, List.range']
    | batch b t =>
      simp only [Servicer.runOps, ih, Img2ImgBatch_state, List.length_cons, List.range']

/-- C4: over any sequence of requests handled by one servicer instance starting
from `__init__`, the assigned `request_id` values are exactly 0,1,2,..., hence
strictly increasing and never reused, across both single and batch
operations (both handlers read and bump the same `self.request_counter`,
with no await between the read and the increment). -/
theorem request_ids_strictly_increasing (ρ Img : Type) (ops : List (ReqOp Img)) :
    (Servicer.runOps ops (Servicer.init ρ)).2 = List.range ops.length ∧
      List.Pairwise (· < ·) (Servicer.runOps ops (Servicer.init ρ)).2 ∧
      (Servicer.runOps ops (Servicer.init ρ)).2.Nodup := by
  have hids : (Servicer.runOps ops (Servicer.init ρ)).2 = List.range ops.length := by
    rw [runOps_ids ops (Servicer.init ρ), List.range_eq_range']
    rfl
  refine ⟨hids, ?_, ?_⟩
  · rw [hids]; exact List.pairwise_lt_range ops.length
  · rw [hids]; exact List.nodup_range ops.length

/-- The spec's statistics scenario run through the actual `Img2Img` handler:
a success with measured latency 100 ms, then a backend failure, then a success
with measured latency 300 ms, starting from `__init__`. -/
def statsScenario : Servicer Unit :=
  ((((Servicer.init Unit).Img2Img (Except.ok (0 : Nat)) 100).1.Img2Img
      (Except.error "backend failure" : Except String Nat) 0).1.Img2Img
      (Except.ok (0 : Nat)) 300).1

/-- C2 (code-bug evaluation): after the success/failure/success scenario the
handler has never called `update_processing_time`, so the rolling average is
still 0 and the completed-job count is still 0, instead of the claimed mean
200 of the two successful latencies. -/
theorem stats_never_updated_on_completion :
    statsScenario.request_queue.avg_processing_time = 0 ∧
      statsScenario.request_queue.total_processed = 0 ∧ (0 : ℚ) ≠ 200 := by
  refine ⟨rfl, rfl, ?_⟩
  norm_num

/-- States of the servicer reachable by handling any sequence of single or
batch requests (with any backend outcomes and latencies) starting from
`__init__`.  `GetQueueStatus` performs no mutation. -/
inductive ServicerReachable (ρ Img : Type) : Servicer ρ → Prop where
  | init : ServicerReachable ρ Img (Servicer.init ρ)
  | img2img (s : Servicer ρ) (h : ServicerReachable ρ Img s)
      (b : Except String Img) (t : Nat) :
      ServicerReachable ρ Img (s.Img2Img b t).1
  | img2imgBatch (s : Servicer ρ) (h : ServicerReachable ρ Img s)
      (b : Except String (List Img)) (t : Nat) :
      ServicerReachable ρ Img (s.Img2ImgBatch b t).1

/-- C10: the handlers never call `add_request` or `update_processing_time` and
never mutate `active_requests`, so in every reachable servicer state the
request queue still equals its initial state and `GetQueueStatus` reports
queue_length 0, estimated wait 0 ms, and 0 active requests. -/
theorem queue_status_always_zero (ρ Img : Type) (s : Servicer ρ)
    (h : ServicerReachable ρ Img s) :
    s.request_queue = RequestQueue.init ρ ∧
      s.GetQueueStatus =
        { queue_length := 0, estimated_wait_time_ms := 0, active_requests := 0 } := by
  have hq : s.request_queue = RequestQueue.init ρ := by
    induction h with
    | init => rfl
    | img2img s hr b t ih => rw [Img2Img_state]; exact ih
    | img2imgBatch s hr b t ih => rw [Img2ImgBatch_state]; exact ih
  refine ⟨hq, ?_⟩
  simp [Servicer.GetQueueStatus, RequestQueue.get_status, hq, RequestQueue.init]

/-- Witness for C10 at the initial state. -/
theorem queue_status_always_zero_witness :
    (Servicer.init Unit).request_queue = RequestQueue.init Unit ∧
      (Servicer.init Unit).GetQueueStatus =
        { queue_length := 0, estimated_wait_time_ms := 0, active_requests := 0 } :=
  queue_status_always_zero Unit Nat (Servicer.init Unit) (ServicerReachable.init)

/-- State of the `ThreadPoolExecutor` created in `SDXLTurboServicer.__init__`
(server.py line 47): the worker-count bound `max_workers`, the submitted jobs
waiting for a worker (FIFO), and the jobs currently executing on a worker.
Jobs are identified by their `request_id`. -/
structure ExecutorState where
  max_workers : Nat
  pending : List Nat
  running : List Nat
deriving DecidableEq

/-- A freshly constructed executor with worker bound `w`: nothing submitted,
nothing running. -/
def ExecutorState.init (w : Nat) : ExecutorState :=
  { max_workers := w, pending := [], running := [] }

/-- The executor the servicer constructs:
`ThreadPoolExecutor(max_workers=1)  # Single worker for MPS`.  Both `Img2Img`
and `Img2ImgBatch` submit their `model.generate_*` call to this one executor
via `run_in_executor`; no other call path into the model is ever invoked
(`_process_single_request` / `_process_batch_request` have no callers). -/
def servicerExecutor : ExecutorState :=
  ExecutorState.init 1

/-- Transitions of a thread-pool executor: a handler submits a job; an idle
worker (fewer than `max_workers` jobs running) starts the oldest pending job;
a running job finishes (successfully or by raising). -/
inductive ExecStep : ExecutorState → ExecutorState → Prop where
  | submit (s : ExecutorState) (j : Nat) :
      ExecStep s { max_workers := s.max_workers, pending := s.pending ++ [j],
                   running := s.running }
  | start (s : ExecutorState) (j : Nat) (rest : List Nat)
      (hcap : s.running.length < s.max_workers) (hq : s.pending = j :: rest) :
      ExecStep s { max_workers := s.max_workers, pending := rest,
                   running := j :: s.running }
  | finish (s : ExecutorState) (j : Nat) (hj : j ∈ s.running) :
      ExecStep s { max_workers := s.max_workers, pending := s.pending,
                   running := s.running.erase j }

/-- Executor states reachable from a given initial state. -/
inductive ExecReachable (s₀ : ExecutorState) : ExecutorState → Prop where
  | refl : ExecReachable s₀ s₀
  | step (s s' : ExecutorState) (h : ExecReachable s₀ s) (hs : ExecStep s s') :
      ExecReachable s₀ s'

/-- Inductive invariant of the servicer's executor: the worker bound stays 1
and at most one job is running. -/
lemma servicerExecutor_invariant (s : ExecutorState)
    (h : ExecReachable servicerExecutor s) :
    s.max_workers = 1 ∧ s.running.length ≤ 1 := by
  induction h with
  | refl => exact ⟨rfl, by simp [servicerExecutor, ExecutorState.init]⟩
  | step s s' hr hs ih =>
    cases hs with
    | submit j => exact ⟨ih.1, ih.2⟩
    | start j rest hcap hq =>
      have h1 := ih.1
      refine ⟨h1, ?_⟩
      simp only [List.length_cons]
      omega
    | finish j hj =>
      have h2 := ih.2
      refine ⟨ih.1, ?_⟩
      simp only
      rw [List.length_erase_of_mem hj]
      omega

/-- C1: in every state the servicer's executor can reach, at most one job is
in-flight against the generation backend — both handlers submit their backend
calls to the single `ThreadPoolExecutor(max_workers=1)`, so two jobs are never
executed concurrently. -/
theorem backend_never_concurrent (s : ExecutorState)
    (h : ExecReachable servicerExecutor s) : s.running.length ≤ 1 :=
  (servicerExecutor_invariant s h).2

/-- Witness for C1: a concrete reachable state (job 7 submitted, then started)
has exactly one job running. -/
theorem backend_never_concurrent_witness :
    ({ max_workers := 1, pending := [], running := [7] } : ExecutorState).running.length ≤ 1 :=
  backend_never_concurrent
    { max_workers := 1, pending := [], running := [7] }
    (ExecReachable.step _ _
      (ExecReachable.step _ _ ExecReachable.refl (ExecStep.submit servicerExecutor 7))
      (ExecStep.start _ 7 [] (by simp [servicerExecutor, ExecutorState.init]) rfl))

end SDXLTurbo

namespace Psyche

/-- `CANVAS_SLUGS` from `src/psyche/backend/config.py` line 20. -/
def CANVAS_SLUGS : List String := ["left-canva", "right-canva"]

/-- `WebSocketManager` from `src/psyche/backend/websocket_manager.py`.  The
field `connections` models the Python dict `Dict[str, Set[WebSocket]]`: `none`
for a key absent from the dict, `some` of the member set for a present key.
Recipient handles (`W`) are opaque, compared by identity. -/
structure WebSocketManager (W : Type) where
  connections : String → Option (Finset W)

/-- `WebSocketManager.__init__`: `{slug: set() for slug in CANVAS_SLUGS}`. -/
def WebSocketManager.init (W : Type) : WebSocketManager W :=
  ⟨fun slug => if slug ∈ CANVAS_SLUGS then some ∅ else none⟩

/-- `WebSocketManager.connect` (websocket_manager.py lines 50-71): returns
`False` and changes nothing when the slug is not a key of the dict; otherwise
accepts the socket (a transport effect, not modelled), adds it to the slug's
set, and returns `True`. -/
def WebSocketManager.connect [DecidableEq W] (m : WebSocketManager W) (ws : W)
    (canvas_slug : String) : WebSocketManager W × Bool :=
  match m.connections canvas_slug with
  | none => (m, false)
  | some s =>
      (⟨fun k => if k = canvas_slug then some (insert ws s) else m.connections k⟩, true)

/-- `WebSocketManager.disconnect` (websocket_manager.py lines 73-85): evaluates
`websocket in self.connections[canvas_slug]`, which raises `KeyError` when the
slug is not a key of the dict; otherwise removes the socket if present and
does nothing if absent. -/
def WebSocketManager.disconnect [DecidableEq W] (m : WebSocketManager W) (ws : W)
    (canvas_slug : String) : Except String (WebSocketManager W) :=
  match m.connections canvas_slug with
  | none => Except.error "KeyError"
  | some s =>
      if ws ∈ s then
        Except.ok ⟨fun k => if k = canvas_slug then some (s.erase ws) else m.connections k⟩
      else
        Except.ok m

/-- `WebSocketManager.get_connections` (websocket_manager.py lines 87-96):
`self.connections.get(canvas_slug, set())`. -/
def WebSocketManager.get_connections [DecidableEq W] (m : WebSocketManager W)
    (canvas_slug : String) : Finset W :=
  (m.connections canvas_slug).getD ∅

/-- The dict built in `__init__` has exactly the configured slugs as keys, and
connect/disconnect never add or drop keys, so this is an invariant. -/
lemma init_dom (W : Type) (k : String) :
    (WebSocketManager.init W).connections k = none ↔ k ∉ CANVAS_SLUGS := by
  by_cases h : k ∈ CANVAS_SLUGS <;> simp [WebSocketManager.init, h]

/-- C5: joining an unconfigured slug returns `False` and leaves the whole
manager unchanged; joining a configured slug returns `True`, makes the
recipient a member, is idempotent (a second identical join returns the very
same state), and touches no other channel.  (`hdom` is the `__init__`
invariant that the dict's keys are exactly the configured slugs; the member
sets are Python sets, so a recipient can occur at most once by construction.) -/
theorem connect_spec (W : Type) [DecidableEq W] (m : WebSocketManager W) (ws : W)
    (slug k : String)
    (hdom : ∀ j, m.connections j = none ↔ j ∉ CANVAS_SLUGS) :
    (slug ∉ CANVAS_SLUGS → m.connect ws slug = (m, false)) ∧
      (slug ∈ CANVAS_SLUGS → (m.connect ws slug).2 = true) ∧
      (slug ∈ CANVAS_SLUGS → ws ∈ (m.connect ws slug).1.get_connections slug) ∧
      (slug ∈ CANVAS_SLUGS →
        ((m.connect ws slug).1.connect ws slug).1 = (m.connect ws slug).1) ∧
      (k ≠ slug → (m.connect ws slug).1.connections k = m.connections k) := by
  rcases hs : m.connections slug with _ | s
  · have hnot : slug ∉ CANVAS_SLUGS := (hdom slug).mp hs
    refine ⟨fun _ => ?_, fun hin => absurd hin hnot, fun hin => absurd hin hnot,
      fun hin => absurd hin hnot, fun _ => ?_⟩
    · simp [WebSocketManager.connect, hs]
    · simp [WebSocketManager.connect, hs]
  · have hin : slug ∈ CANVAS_SLUGS := by
      by_contra hnot
      rw [(hdom slug).mpr hnot] at hs
      exact Option.noConfusion hs
    have hconn : m.connect ws slug =
        (⟨fun j => if j = slug then some (insert ws s) else m.connections j⟩, true) := by
      simp [WebSocketManager.connect, hs]
    refine ⟨fun hnot => absurd hin hnot, fun _ => ?_, fun _ => ?_, fun _ => ?_, fun hk => ?_⟩
    · rw [hconn]
    · rw [hconn]
      simp [WebSocketManager.get_connections]
    · rw [hconn]
      simp only [WebSocketManager.connect, if_true, ite_true]
      congr 1
      funext j
      by_cases hj : j = slug <;> simp [hj, Finset.insert_idem]
    · rw [hconn]
      simp [hk]

/-- Witness for C5 at the initial manager, recipient 0, the configured slug
"left-canva" and the other channel "right-canva". -/
theorem connect_spec_witness :
    ("left-canva" ∉ CANVAS_SLUGS →
        (WebSocketManager.init Nat).connect 0 "left-canva" = (WebSocketManager.init Nat, false)) ∧
      ("left-canva" ∈ CANVAS_SLUGS →
        ((WebSocketManager.init Nat).connect 0 "left-canva").2 = true) ∧
      ("left-canva" ∈ CANVAS_SLUGS →
        0 ∈ ((WebSocketManager.init Nat).connect 0 "left-canva").1.get_connections
          "left-canva") ∧
      ("left-canva" ∈ CANVAS_SLUGS →
        (((WebSocketManager.init Nat).connect 0 "left-canva").1.connect 0 "left-canva").1 =
          ((WebSocketManager.init Nat).connect 0 "left-canva").1) ∧
      ("right-canva" ≠ "left-canva" →
        ((WebSocketManager.init Nat).connect 0 "left-canva").1.connections "right-canva" =
          (WebSocketManager.init Nat).connections "right-canva") :=
  connect_spec Nat (WebSocketManager.init Nat) 0 "left-canva" "right-canva" (init_dom Nat)

/-- C6 counterexample: on the freshly initialised manager, `disconnect` with
the unknown slug "center" raises `KeyError` (the claim says it is a no-op that
raises no error). -/
theorem disconnect_unknown_slug_raises :
    (WebSocketManager.init Nat).disconnect 0 "center" = Except.error "KeyError" ∧
      "center" ∉ CANVAS_SLUGS := by
  constructor
  · rfl
  · decide

/-- C6 amended: for a slug that is a key of the dict, `disconnect` removes the
recipient if present and is a no-op when absent, and whatever it returns
leaves every other channel's membership unchanged; for a slug that is not a
key (an unconfigured slug), `disconnect` raises `KeyError` instead of being a
no-op. -/
theorem disconnect_spec (W : Type) [DecidableEq W] (m : WebSocketManager W) (ws : W)
    (slug slug' k : String) (s : Finset W)
    (hs : m.connections slug = some s)
    (hnone : m.connections slug' = none) :
    (ws ∈ s → m.disconnect ws slug =
        Except.ok ⟨fun j => if j = slug then some (s.erase ws) else m.connections j⟩) ∧
      (ws ∉ s → m.disconnect ws slug = Except.ok m) ∧
      (k ≠ slug →
        (m.disconnect ws slug).map (fun m' => m'.connections k) =
          Except.ok (m.connections k)) ∧
      m.disconnect ws slug' = Except.error "KeyError" := by
  refine ⟨fun hmem => ?_, fun hmem => ?_, fun hk => ?_, ?_⟩
  · simp [WebSocketManager.disconnect, hs, hmem]
  · simp [WebSocketManager.disconnect, hs, hmem]
  · by_cases hmem : ws ∈ s
    · simp [WebSocketManager.disconnect, hs, hmem, hk, Except.map]
    · simp [WebSocketManager.disconnect, hs, hmem, Except.map]
  · simp [WebSocketManager.disconnect, hnone]

/-- Witness for C6 (amended) on a manager holding recipient 0 on "left-canva":
disconnecting 0 from "left-canva" removes it, other channels are untouched,
and disconnecting from the unknown slug "center" raises `KeyError`. -/
theorem disconnect_spec_witness :
    (0 ∈ ({0} : Finset Nat) →
        ((WebSocketManager.init Nat).connect 0 "left-canva").1.disconnect 0 "left-canva" =
          Except.ok ⟨fun j => if j = "left-canva" then some (({0} : Finset Nat).erase 0)
            else ((WebSocketManager.init Nat).connect 0 "left-canva").1.connections j⟩) ∧
      (0 ∉ ({0} : Finset Nat) →
        ((WebSocketManager.init Nat).connect 0 "left-canva").1.disconnect 0 "left-canva" =
          Except.ok ((WebSocketManager.init Nat).connect 0 "left-canva").1) ∧
      ("right-canva" ≠ "left-canva" →
        (((WebSocketManager.init Nat).connect 0 "left-canva").1.disconnect 0
            "left-canva").map (fun m' => m'.connections "right-canva") =
          Except.ok (((WebSocketManager.init Nat).connect 0
            "left-canva").1.connections "right-canva")) ∧
      ((WebSocketManager.init Nat).connect 0 "left-canva").1.disconnect 0 "center" =
        Except.error "KeyError" :=
  disconnect_spec Nat ((WebSocketManager.init Nat).connect 0 "left-canva").1 0
    "left-canva" "center" "right-canva" {0} (by rfl) (by rfl)

/-- The JSON message built once per frame in `ImageHandler.send_image`
(image_handler.py lines 40-44): ISO timestamp, base64 JPEG string, fresh
`image_id`. -/
structure BroadcastMessage where
  timestamp : String
  image : String
  image_id : String
deriving DecidableEq

/-- Outcome of one `send_image` call: the (mutated) connection set, the two
counters reported in the final log line, and the list of deliveries actually
performed (recipient paired with the message it received). -/
structure BroadcastResult (W : Type) where
  connections : Finset W
  successful_sends : Nat
  failed_sends : Nat
  delivered : List (W × BroadcastMessage)
deriving DecidableEq

/-- The per-recipient fan-out loop of `ImageHandler.send_image`
(image_handler.py lines 50-58): iterate over `list(connections)` (the snapshot
`order`); a successful `send_json` bumps `successful_sends` and delivers the
one message; a raising `send_json` is caught, bumps `failed_sends`, and
removes the recipient from the live set if still present.  `sendOk` is the
delivery-failure model: whether a given recipient's send succeeds. -/
def sendLoop [DecidableEq W] (sendOk : W → Bool) (msg : BroadcastMessage) :
    List W → Finset W → Nat → Nat → List (W × BroadcastMessage) → BroadcastResult W
  | [], conns, succ, failed, delivered =>
      { connections := conns, successful_sends := succ, failed_sends := failed,
        delivered := delivered }
  | c :: rest, conns, succ, failed, delivered =>
      if sendOk c then
        sendLoop sendOk msg rest conns (succ + 1) failed (delivered ++ [(c, msg)])
      else
        sendLoop sendOk msg rest (conns.erase c) succ (failed + 1) delivered

/-- `ImageHandler.send_image` (image_handler.py lines 20-67).  With no
connections it returns immediately.  Otherwise the frame is encoded and the
message built once (`encoded` is the outcome of `img.save`/`b64encode`/message
construction, opaque PIL and base64 being out of scope); if that raises, the
`except` block at lines 65-67 runs `traceback.format_exc()` — but
image_handler.py never imports `traceback`, so the handler itself raises
`NameError`, which propagates to the caller.  On a successfully built message
the fan-out loop runs and the call returns normally. -/
def send_image [DecidableEq W] (sendOk : W → Bool) (encoded : Except Unit BroadcastMessage)
    (connections : Finset W) (order : List W) : Except String (BroadcastResult W) :=
  if connections = ∅ then
    Except.ok { connections := connections, successful_sends := 0, failed_sends := 0,
                delivered := [] }
  else
    match encoded with
    | Except.error _ => Except.error "NameError: traceback is not defined"
    | Except.ok msg => Except.ok (sendLoop sendOk msg order connections 0 0 [])

/-- Closed form of the fan-out loop: failing recipients are erased from the
set, the counters add the numbers of succeeding and failing entries of the
snapshot, and exactly the succeeding entries receive the (single) message. -/
lemma sendLoop_spec [DecidableEq W] (sendOk : W → Bool) (msg : BroadcastMessage) :
    ∀ (l : List W) (conns : Finset W) (succ failed : Nat)
      (delivered : List (W × BroadcastMessage)),
      sendLoop sendOk msg l conns succ failed delivered =
        { connections := conns \ (l.filter (fun c => ! sendOk c)).toFinset
          successful_sends := succ + (l.filter (fun c => sendOk c)).length
          failed_sends := failed + (l.filter (fun c => ! sendOk c)).length
          delivered := delivered ++ (l.filter (fun c => sendOk c)).map (fun c => (c, msg)) } := by
  intro l
  induction l with
  | nil => intro conns succ failed delivered; simp [sendLoop]
  | cons c rest ih =>
    intro conns succ failed delivered
    by_cases hc : sendOk c
    · have h1 : List.filter (fun c => sendOk c) (c :: rest) =
          c :: List.filter (fun c => sendOk c) rest :=
        List.filter_cons_of_pos (by simpa using hc)
      have h2 : List.filter (fun c => ! sendOk c) (c :: rest) =
          List.filter (fun c => ! sendOk c) rest :=
        List.filter_cons_of_neg (by simp [hc])
      rw [sendLoop, if_pos hc, ih, h1, h2]
      simp only [BroadcastResult.mk.injEq, List.length_cons]
      refine ⟨by trivial, by omega, by trivial, by simp⟩
    · have hb : sendOk c = false := by simpa using hc
      have h1 : List.filter (fun c => sendOk c) (c :: rest) =
          List.filter (fun c => sendOk c) rest :=
        List.filter_cons_of_neg (by simp [hb])
      have h2 : List.filter (fun c => ! sendOk c) (c :: rest) =
          c :: List.filter (fun c => ! sendOk c) rest :=
        List.filter_cons_of_pos (by simp [hb])
      rw [sendLoop, if_neg hc, ih, h1, h2]
      simp only [BroadcastResult.mk.injEq, List.length_cons]
      refine ⟨?_, by trivial, by omega, by trivial⟩
      rw [List.toFinset_cons, Finset.erase_eq, sdiff_sdiff_left, Finset.sup_eq_union,
        Finset.insert_eq]

/-- C7: broadcasting over a non-empty member set with a successfully built
message returns normally (never an error), with each failing recipient erased
from the member set, each succeeding recipient kept and delivered the frame,
and the reported counters equal to the actual numbers of succeeding and
failing members.  `order` is the iteration snapshot `list(connections)`: an
enumeration, in some order, of the member set. -/
theorem broadcast_partial_failure (W : Type) [DecidableEq W] (sendOk : W → Bool)
    (msg : BroadcastMessage) (conns : Finset W) (order : List W)
    (hne : conns ≠ ∅) (hnd : order.Nodup)
    (hmem : ∀ w, w ∈ order ↔ w ∈ conns) :
    send_image sendOk (Except.ok msg) conns order =
        Except.ok
          { connections := conns.filter (fun w => sendOk w = true)
            successful_sends := (order.filter (fun w => sendOk w)).length
            failed_sends := (order.filter (fun w => ! sendOk w)).length
            delivered := (order.filter (fun w => sendOk w)).map (fun w => (w, msg)) } ∧
      (order.filter (fun w => sendOk w)).length =
        (conns.filter (fun w => sendOk w = true)).card ∧
      (order.filter (fun w => ! sendOk w)).length =
        (conns.filter (fun w => ¬ sendOk w = true)).card := by
  have hset : conns \ (order.filter (fun c => ! sendOk c)).toFinset =
      conns.filter (fun w => sendOk w = true) := by
    ext w
    simp only [Finset.mem_sdiff, List.mem_toFinset, List.mem_filter, Finset.mem_filter,
      Bool.not_eq_true', hmem w]
    by_cases hw : w ∈ conns <;> by_cases hb : sendOk w <;> simp_all
  have hfin1 : (order.filter (fun w => sendOk w)).toFinset =
      conns.filter (fun w => sendOk w = true) := by
    ext w
    simp only [List.mem_toFinset, List.mem_filter, Finset.mem_filter, hmem w]
  have hfin2 : (order.filter (fun w => ! sendOk w)).toFinset =
      conns.filter (fun w => ¬ sendOk w = true) := by
    ext w
    simp only [List.mem_toFinset, List.mem_filter, Finset.mem_filter, hmem w,
      Bool.not_eq_true']
    by_cases hb : sendOk w <;> simp_all
  have hcard1 : (order.filter (fun w => sendOk w)).length =
      (conns.filter (fun w => sendOk w = true)).card := by
    rw [← hfin1, List.toFinset_card_of_nodup (hnd.filter _)]
  have hcard2 : (order.filter (fun w => ! sendOk w)).length =
      (conns.filter (fun w => ¬ sendOk w = true)).card := by
    rw [← hfin2, List.toFinset_card_of_nodup (hnd.filter _)]
  refine ⟨?_, hcard1, hcard2⟩
  simp only [send_image, if_neg hne]
  rw [sendLoop_spec]
  simp only [Nat.zero_add, List.nil_append, hset]

/-- Witness for C7: recipients 0 and 1 on the channel, sends to 0 succeed and
sends to 1 fail; the call returns normally, keeps only recipient 0 (who
received the frame), and reports 1 success and 1 failure. -/
theorem broadcast_partial_failure_witness :
    send_image (fun w => decide (w = 0)) (Except.ok ⟨"t", "img", "id"⟩)
        ({0, 1} : Finset Nat) [0, 1] =
        Except.ok
          { connections := ({0, 1} : Finset Nat).filter
              (fun w => (fun w : Nat => decide (w = 0)) w = true)
            successful_sends :=
              (([0, 1] : List Nat).filter (fun w => decide (w = 0))).length
            failed_sends :=
              (([0, 1] : List Nat).filter (fun w => ! decide (w = 0))).length
            delivered := (([0, 1] : List Nat).filter (fun w => decide (w = 0))).map
              (fun w => (w, (⟨"t", "img", "id"⟩ : BroadcastMessage))) } ∧
      (([0, 1] : List Nat).filter (fun w => decide (w = 0))).length =
        (({0, 1} : Finset Nat).filter
          (fun w => (fun w : Nat => decide (w = 0)) w = true)).card ∧
      (([0, 1] : List Nat).filter (fun w => ! decide (w = 0))).length =
        (({0, 1} : Finset Nat).filter
          (fun w => ¬ (fun w : Nat => decide (w = 0)) w = true)).card :=
  broadcast_partial_failure Nat (fun w => decide (w = 0)) ⟨"t", "img", "id"⟩
    ({0, 1} : Finset Nat) [0, 1] (by decide) (by decide)
    (by intro w; simp)

/-- C8 (code-bug evaluation): with a non-empty recipient set and a frame whose
encoding raises, `send_image` does not swallow the failure — the `except`
handler references the never-imported `traceback` module, so the call raises
`NameError` to its caller. -/
theorem encode_failure_propagates :
    send_image (fun _ => true) (Except.error ()) ({0} : Finset Nat) [0] =
      Except.error "NameError: traceback is not defined" := by
  rfl

/-- C9: the message is built exactly once, before the fan-out: every recipient
that receives the frame receives that one message — same base64 image string,
same `image_id`, same `timestamp` — never a per-recipient re-encoding. -/
theorem frame_encoded_once (W : Type) [DecidableEq W] (sendOk : W → Bool)
    (msg : BroadcastMessage) (conns : Finset W) (order : List W)
    (out : BroadcastResult W) (d : W × BroadcastMessage)
    (hR : send_image sendOk (Except.ok msg) conns order = Except.ok out)
    (hd : d ∈ out.delivered) : d.2 = msg := by
  by_cases hne : conns = ∅
  · simp only [send_image, if_pos hne] at hR
    cases hR
    simp at hd
  · simp only [send_image, if_neg hne] at hR
    rw [sendLoop_spec] at hR
    cases hR
    simp only [List.nil_append] at hd
    obtain ⟨c, hc, hEq⟩ := List.mem_map.mp hd
    rw [← hEq]

/-- Witness for C9: the sole recipient 0 receives exactly the one encoded
message. -/
theorem frame_encoded_once_witness :
    (((0 : Nat), (⟨"t", "img", "id"⟩ : BroadcastMessage))).2 =
      (⟨"t", "img", "id"⟩ : BroadcastMessage) :=
  frame_encoded_once Nat (fun _ => true) ⟨"t", "img", "id"⟩ ({0} : Finset Nat) [0]
    { connections := {0}, successful_sends := 1, failed_sends := 0,
      delivered := [((0 : Nat), ⟨"t", "img", "id"⟩)] }
    ((0 : Nat), ⟨"t", "img", "id"⟩) (by rfl) (by simp)

end Psyche
